import Mathlib

/-!
Verification of the pycarbon TensorFlow integration module
(`src/python/pycarbon/integration/tensorflow.py`).

The module bridges a row-oriented reader to TensorFlow: a fixed numpy→TF
dtype table, a per-row field sanitizer, an ngram flatten/unflatten pair,
a static-shape setter, and the `make_tensor` / `make_dataset` bridges with
their configuration guards.  Python exceptions are modelled by an explicit
error type and `Except`; rows (named tuples / `OrderedDict`s) are modelled
as ordered association lists.
-/

namespace PyCarbonTF

/-- A tensor shape dimension: either unbound (Python `None`) or a fixed size. -/
inductive Dim where
  | unbound
  | fixed (n : Nat)
  deriving DecidableEq

/-- TensorFlow element dtypes that occur in the mapping table. -/
inductive TfDtype where
  | bool
  | int8
  | int16
  | int32
  | int64
  | uint8
  | float32
  | float64
  | string
  deriving DecidableEq

/-- Declared (numpy-ish) element types: every key of the source's
`_NUMPY_TO_TF_DTYPES_MAPPING` table, plus several types that are absent
from the table (`uint32`, `uint64`, `float16`, `object_`, `complex64`)
so that the failure branch of the lookup is exercised. -/
inductive NumpyDtype where
  | npBool
  | int8
  | int16
  | int32
  | int64
  | uint8
  | uint16
  | float32
  | float64
  | string_
  | unicode_
  | str_
  | bool_
  | decimal
  | datetime64
  | uint32
  | uint64
  | float16
  | object_
  | complex64
  deriving DecidableEq, BEq

/-- The errors raised by the module.  Each constructor corresponds to one
distinct raise site in the source: the `None`-value `RuntimeError` in
`_sanitize_field_tf_types` (the spec's `NullValueError`, carrying the field
name), the unknown-dtype `ValueError` in `_numpy_to_tf_dtypes` (the spec's
`TypeMappingError`, carrying the offending type), the batched-output/queue
`ValueError` in `make_tensor` (the spec's `ConfigurationError`), the
re-iteration `RuntimeError` in `make_dataset`'s generator (the spec's
`RestartError`, whose message directs the caller to `num_epochs`), and the
ngram `NotImplementedError` in `make_dataset`. -/
inductive TfError where
  | nullValueError (field : String)
  | typeMappingError (dtype : NumpyDtype)
  | configurationError
  | restartError
  | notImplementedError
  deriving DecidableEq

/-- An element of a `np.datetime64` array, represented by its offset from
the POSIX epoch (1970-01-01T00:00:00 UTC): whole seconds plus nanoseconds.
This is numpy's own representation (an integer count of time units since
the epoch), split so that the nanosecond arithmetic is explicit. -/
structure Datetime64 where
  sec : Int
  nsec : Int
  deriving DecidableEq

/-- A python `datetime.date` (as produced by pyarrow for `DateType`
columns), represented by `timegm(dt.timetuple())`: whole seconds from the
POSIX epoch at midnight of that date. -/
structure PyDate where
  sec : Int
  deriving DecidableEq

/-- A python `Decimal`: sign, integer coefficient, and decimal exponent;
the represented number is `(-1)^neg * coeff * 10^exp`. -/
structure Dec where
  neg : Bool
  coeff : Nat
  exp : Int
  deriving DecidableEq

/-- Field values as they occur in rows handed to the sanitizer.  Array
values carry their element kind so that the sanitizer's `isinstance` /
dtype dispatch is translated into constructor dispatch. -/
inductive Value where
  | none
  | decimal (d : Dec)
  | str (s : String)
  | int (n : Int)
  | datetimeArray (xs : List Datetime64)
  | uint16Array (xs : List Nat)
  | int32Array (xs : List Int)
  | int64Array (xs : List Int)
  | stringArray (xs : List String)
  | pyList (xs : List String)
  | dateObjectArray (xs : List PyDate)
  deriving DecidableEq

/-- A row: ordered association list from field name to value (the
`_asdict()` view of the reader's named tuples). -/
abbrev Row := List (String × Value)

/-- A unischema field descriptor: declared numpy dtype and declared shape. -/
structure Field where
  numpy_dtype : NumpyDtype
  shape : List Dim
  deriving DecidableEq

/-- The ngram descriptor: a mapping from integer timestep offset to the
field names active at that timestep (the `ngram.fields` dict). -/
structure NgramDesc where
  fields : List (Int × List String)
  deriving DecidableEq

/-- The reader, as consumed by this module: ordered schema fields, optional
ngram descriptor, the `batched_output` and `last_row_consumed` flags, and
the remaining rows it would yield. -/
structure Reader where
  schema : List (String × Field)
  ngram : Option NgramDesc
  batched_output : Bool
  last_row_consumed : Bool
  rows : List Row

/-- The source's `_NUMPY_TO_TF_DTYPES_MAPPING` table, entries in source
order (`np.bool` and `np.bool_` are distinct dict keys with the same
target; `np.uint16` maps to `tf.int32`; `Decimal` and the string-like
types map to `tf.string`; `np.datetime64` maps to `tf.int64`). -/
def NUMPY_TO_TF_DTYPES_MAPPING : List (NumpyDtype × TfDtype) :=
  [ (NumpyDtype.npBool, TfDtype.bool),
    (NumpyDtype.int8, TfDtype.int8),
    (NumpyDtype.int16, TfDtype.int16),
    (NumpyDtype.int32, TfDtype.int32),
    (NumpyDtype.int64, TfDtype.int64),
    (NumpyDtype.uint8, TfDtype.uint8),
    (NumpyDtype.uint16, TfDtype.int32),
    (NumpyDtype.float32, TfDtype.float32),
    (NumpyDtype.float64, TfDtype.float64),
    (NumpyDtype.string_, TfDtype.string),
    (NumpyDtype.unicode_, TfDtype.string),
    (NumpyDtype.str_, TfDtype.string),
    (NumpyDtype.bool_, TfDtype.bool),
    (NumpyDtype.decimal, TfDtype.string),
    (NumpyDtype.datetime64, TfDtype.int64) ]

/-- The source's `_numpy_to_tf_dtypes`: exact-match lookup in the table; a type absent
from the table raises (`ValueError` naming the type — the spec's
`TypeMappingError`).  No default and no fallback. -/
def numpy_to_tf_dtypes (d : NumpyDtype) : Except TfError TfDtype :=
  match List.lookup d NUMPY_TO_TF_DTYPES_MAPPING with
  | some t => Except.ok t
  | Option.none => Except.error (TfError.typeMappingError d)

/-- Nanoseconds from the POSIX epoch for one `np.datetime64` element:
the source computes `(v - np.datetime64(epoch)).astype('timedelta64[ns]')
.astype(np.int64)`, i.e. exact integer nanosecond arithmetic. -/
def nsec_from_epoch (d : Datetime64) : Int :=
  d.sec * 1000000000 + d.nsec

/-- The source's `date_to_nsec_from_epoch`: `timegm(dt.timetuple()) * 1000000000`. -/
def date_to_nsec_from_epoch (d : PyDate) : Int :=
  d.sec * 1000000000

/-- Strips trailing zero digits from a decimal coefficient, incrementing
the exponent per stripped digit.  The first argument is fuel; the number
of strippable digits of `c` is at most `c`, so fuel `c` is sufficient. -/
def stripTrailingAux : Nat → Nat → Int → Nat × Int
  | 0, c, e => (c, e)
  | fuel + 1, c, e =>
    if c ≠ 0 ∧ c % 10 = 0 then stripTrailingAux fuel (c / 10) (e + 1) else (c, e)

/-- Python `Decimal.normalize()`: reduce to the simplest form — strip trailing
zero digits from the coefficient; a zero coefficient normalizes to
exponent 0 (`Decimal("0.00").normalize() == Decimal("0")`). -/
def dec_normalize (d : Dec) : Dec :=
  if d.coeff = 0 then ⟨d.neg, 0, 0⟩
  else ⟨d.neg, (stripTrailingAux d.coeff d.coeff d.exp).1,
        (stripTrailingAux d.coeff d.coeff d.exp).2⟩

/-- Decimal digits of a natural number, most significant first (`[0]` for
zero).  The first argument of the auxiliary is fuel; `n` is sufficient. -/
def natDigitsAux : Nat → Nat → List Nat
  | 0, _ => []
  | fuel + 1, n => if n = 0 then [] else natDigitsAux fuel (n / 10) ++ [n % 10]

/-- Digits of `n` in base 10, most significant first. -/
def nat_digits (n : Nat) : List Nat :=
  if n = 0 then [0] else natDigitsAux n n

/-- A single decimal digit as a character. -/
def digitChar (n : Nat) : Char :=
  Char.ofNat (48 + n)

/-- Python `str` of a `Decimal`, per the General Decimal Arithmetic
to-scientific-string rules implemented by python's `Decimal.__str__`:
plain notation when `exp ≤ 0` and the adjusted exponent is at least `-6`
(decimal point only if a fractional part remains), scientific notation
otherwise. -/
def dec_to_string (d : Dec) : String :=
  let ds := (nat_digits d.coeff).map digitChar
  let adj : Int := d.exp + ds.length - 1
  let body : List Char :=
    if d.exp ≤ 0 ∧ -6 ≤ adj then
      if d.exp = 0 then ds
      else if adj < 0 then ('0' :: '.' :: List.replicate (-adj - 1).toNat '0') ++ ds
      else ds.take (adj + 1).toNat ++ '.' :: ds.drop (adj + 1).toNat
    else
      match ds with
      | [] => []
      | c :: rest =>
        c :: (if rest.isEmpty then [] else '.' :: rest)
          ++ 'E' :: (if adj < 0 then '-' else '+') :: (nat_digits adj.natAbs).map digitChar
  (if d.neg then "-" else "") ++ String.mk body

/-- One elif-chain step of `_sanitize_field_tf_types` (the `None` check is
done separately, in `sanitize_field_tf_types`): Decimal → normalized
string; datetime64 array → int64 nanoseconds from epoch; uint16 array →
int32 array; non-empty string array → plain list (`tolist()`); object
array of `datetime.date` → int64 nanoseconds from epoch; everything else
passes through unchanged. -/
def sanitize_value : Value → Value
  | Value.decimal d => Value.str (dec_to_string (dec_normalize d))
  | Value.datetimeArray xs => Value.int64Array (xs.map nsec_from_epoch)
  | Value.uint16Array xs => Value.int32Array (xs.map Int.ofNat)
  | Value.stringArray xs =>
    if xs.length ≠ 0 then Value.pyList xs else Value.stringArray xs
  | Value.dateObjectArray xs => Value.int64Array (xs.map date_to_nsec_from_epoch)
  | v => v

/-- The source's `_sanitize_field_tf_types`: walks the row's fields in order; the first
`None` value raises (`RuntimeError` naming the field — the spec's
`NullValueError`); otherwise every value is rewritten by the cast chain
and a row of the same shape is returned. -/
def sanitize_field_tf_types : Row → Except TfError Row
  | [] => Except.ok []
  | (k, v) :: rest =>
    if v = Value.none then Except.error (TfError.nullValueError k)
    else
      match sanitize_field_tf_types rest with
      | Except.error e => Except.error e
      | Except.ok r => Except.ok ((k, sanitize_value v) :: r)

/-- The source's `_flatten`: sort the timestep keys ascending, enumerate them with a
0-based index, and emit each timestep's fields (in the row's own order)
under the key `fieldname + "_" + str(index)`; output order is encounter
order (`OrderedDict` insertion order). -/
def flatten (data : List (Int × Row)) : List (String × Value) :=
  (((data.map Prod.fst).insertionSort (· ≤ ·)).enum).flatMap
    (fun q =>
      match List.lookup q.2 data with
      | some row => row.map (fun f => (f.1 ++ "_" ++ toString q.1, f.2))
      | Option.none => [])

/-- Modelled from the spec: the ngram descriptor's
`get_field_names_at_timestep` (external unischema/ngram module, not under
src) — the field names active at a timestep. -/
def get_field_names_at_timestep (g : NgramDesc) (t : Int) : List String :=
  (List.lookup t g.fields).getD []

/-- Modelled from the spec: `get_schema_at_timestep` (external
unischema/ngram module, not under src) — "the schema restricted to that
timestep": the schema's ordered fields filtered to those active at the
timestep, in schema order. -/
def get_schema_at_timestep (schema : List (String × Field)) (g : NgramDesc) (t : Int) :
    List (String × Field) :=
  schema.filter (fun f => (get_field_names_at_timestep g t).contains f.1)

/-- Python `min` of a nonempty key list (python `min(keys)`); 0 for the empty
list, on which the python code would raise. -/
def minKey : List Int → Int
  | [] => 0
  | x :: xs => xs.foldl min x

/-- Python `max` of a nonempty key list (python `max(keys)`); 0 for the empty
list, on which the python code would raise. -/
def maxKey : List Int → Int
  | [] => 0
  | x :: xs => xs.foldl max x

/-- Python `range(min(ngram.fields.keys()), max(ngram.fields.keys()) + 1)`. -/
def tsRange (g : NgramDesc) : List Int :=
  (List.range (maxKey (g.fields.map Prod.fst) - minKey (g.fields.map Prod.fst) + 1).toNat).map
    (fun i => minKey (g.fields.map Prod.fst) + Int.ofNat i)

/-- The timestep loop of `make_namedtuple_tf_ngram`: for each timestep in
order, slice off as many leading positional values as that timestep's
field count (`len(get_field_names_at_timestep(timestep))`) and build the
timestep's row by pairing the restricted schema's field names with the
sliced values. -/
def ngram_slices (schema : List (String × Field)) (g : NgramDesc) :
    List Int → List Value → List (Int × Row)
  | [], _ => []
  | t :: ts, args =>
    (t, List.zip ((get_schema_at_timestep schema g t).map Prod.fst)
          (args.take (get_field_names_at_timestep g t).length))
      :: ngram_slices schema g ts (args.drop (get_field_names_at_timestep g t).length)

/-- The source's `make_namedtuple_tf_ngram` on positional args (the path used by the
tensor bridge): reconstruct one row per timestep from `min` to `max` of
the ngram's timestep keys, consuming the flat value list positionally. -/
def make_namedtuple_tf_ngram (unischema : List (String × Field)) (g : NgramDesc)
    (args : List Value) : List (Int × Row) :=
  ngram_slices unischema g (tsRange g) args

/-- Python truthiness of the `batched_output` parameter of `_set_shape`
(default `None`, which is falsy like `False`). -/
def truthy : Option Bool → Bool
  | some true => true
  | _ => false

/-- The source's `_set_shape`: for every field of the produced record, look up its
declared shape in the schema and apply it as the static shape, prepending
one unbound leading dimension exactly when `batched_output` is truthy.
The result records the shape applied to each field. -/
def set_shape (schema : List (String × Field)) (field_names : List String)
    (batched_output : Option Bool) : List (String × List Dim) :=
  field_names.map (fun k =>
    (k, match List.lookup k schema with
        | some f => if truthy batched_output then Dim.unbound :: f.shape else f.shape
        | Option.none => []))

/-- The shape-application outcome of `_tf_tensors_nonngram`: `_set_shape`
over all schema fields with `reader.batched_output` passed through. -/
def tf_tensors_nonngram (reader : Reader) : List (String × List Dim) :=
  set_shape reader.schema (reader.schema.map Prod.fst) (some reader.batched_output)

/-- The shape-application outcome of `_tf_tensors_ngram`: for each
timestep of the ngram, `_set_shape` over that timestep's fields — called
without the `batched_output` argument (so it defaults to `None`). -/
def tf_tensors_ngram (reader : Reader) (g : NgramDesc) :
    List (Int × List (String × List Dim)) :=
  (tsRange g).map (fun t =>
    (t, set_shape reader.schema ((get_schema_at_timestep reader.schema g t).map Prod.fst)
          Option.none))

/-- The observable outcome of `make_tensor`: the applied static shapes,
per field (non-ngram) or per timestep and field (ngram). -/
inductive BridgeOut where
  | flat (fields : List (String × List Dim))
  | ngram (timesteps : List (Int × List (String × List Dim)))
  deriving DecidableEq

/-- The source's `make_tensor`: rejects `batched_output` combined with
`shuffling_queue_capacity > 0` (`ValueError` — the spec's
`ConfigurationError`) before building anything (graph construction pulls
no rows), then dispatches to the ngram or non-ngram path. -/
def make_tensor (reader : Reader) (shuffling_queue_capacity min_after_dequeue : Int) :
    Except TfError BridgeOut :=
  if reader.batched_output ∧ shuffling_queue_capacity > 0 then
    Except.error TfError.configurationError
  else
    match reader.ngram with
    | some g => Except.ok (BridgeOut.ngram (tf_tensors_ngram reader g))
    | Option.none =>
      let _ := min_after_dequeue
      Except.ok (BridgeOut.flat (tf_tensors_nonngram reader))

/-- The generator body of `make_dataset` (`dequeue_sample_impl`): when the
dataset runtime re-initiates the generator after the reader has consumed
its last row, it raises (`RuntimeError` directing the caller to
`num_epochs` — the spec's `RestartError`) and yields nothing; otherwise it
yields the sanitized rows. -/
def dataset_generator (reader : Reader) : Except TfError (List Row) :=
  if reader.last_row_consumed then Except.error TfError.restartError
  else reader.rows.mapM sanitize_field_tf_types

/-- The observable outcome of `make_dataset`: the behavior of the
generator backing the returned dataset. -/
structure DatasetOut where
  gen : Except TfError (List Row)

/-- The source's `make_dataset`: ngram readers are rejected eagerly with
`NotImplementedError`; otherwise the dataset wraps the generator. -/
def make_dataset (reader : Reader) : Except TfError DatasetOut :=
  if reader.ngram.isSome then Except.error TfError.notImplementedError
  else Except.ok ⟨dataset_generator reader⟩

/-- The mathematical description used to state the flattening order: the
timestep→row pairs sorted ascending by timestep key. -/
def sortPairs (data : List (Int × Row)) : List (Int × Row) :=
  data.insertionSort (fun p q => p.1 ≤ q.1)

deriving instance DecidableEq for Except

/-! ### Helper lemmas -/

lemma lookup_map_self {α β : Type} [BEq α] [LawfulBEq α] (l : List α) (f : α → β)
    (a : α) (h : a ∈ l) :
    List.lookup a (l.map (fun x => (x, f x))) = some (f a) := by
  induction l with
  | nil => cases h
  | cons x xs ih =>
    rcases List.mem_cons.mp h with h1 | h2
    · subst h1; simp [List.lookup]
    · by_cases hx : a = x
      · subst hx; simp [List.lookup]
      · have hb : (a == x) = false := beq_eq_false_iff_ne.mpr hx
        simpa [List.lookup, hb] using ih h2

lemma lookup_set_shape (schema : List (String × Field)) (ks : List String)
    (b : Option Bool) (k : String) (f : Field) (hk : k ∈ ks)
    (hf : List.lookup k schema = some f) :
    List.lookup k (set_shape schema ks b)
      = some (if truthy b then Dim.unbound :: f.shape else f.shape) := by
  have h := lookup_map_self ks
    (fun k => match List.lookup k schema with
      | some f => if truthy b then Dim.unbound :: f.shape else f.shape
      | Option.none => []) k hk
  simp only [hf] at h
  exact h

lemma stripTrailingAux_spec :
    ∀ (fuel c : Nat) (e : Int), c ≤ fuel → c ≠ 0 →
      (stripTrailingAux fuel c e).1 ≠ 0 ∧ (stripTrailingAux fuel c e).1 % 10 ≠ 0 := by
  intro fuel
  induction fuel with
  | zero => intro c e hc h0; omega
  | succ n ih =>
    intro c e hc h0
    by_cases hd : c % 10 = 0
    · rw [stripTrailingAux, if_pos ⟨h0, hd⟩]
      exact ih (c / 10) (e + 1) (by omega) (by omega)
    · rw [stripTrailingAux, if_neg (fun hcon => hd hcon.2)]
      exact ⟨h0, hd⟩

/-! ### Type mapper (claim C3) -/

/-- C3: every declared type present in the fixed mapping table maps to its
documented tensor dtype — in particular `uint16 ↦ int32`, `Decimal` and
both string-like types `↦ string`, `datetime64 ↦ int64` — and every
declared type absent from the table fails with the type-mapping error
naming that type, never a default: every result is either an `ok` from the
table or the error carrying exactly the offending type. -/
theorem numpy_to_tf_dtypes_spec :
    (∀ p ∈ NUMPY_TO_TF_DTYPES_MAPPING, numpy_to_tf_dtypes p.1 = Except.ok p.2) ∧
    numpy_to_tf_dtypes NumpyDtype.uint16 = Except.ok TfDtype.int32 ∧
    numpy_to_tf_dtypes NumpyDtype.decimal = Except.ok TfDtype.string ∧
    numpy_to_tf_dtypes NumpyDtype.string_ = Except.ok TfDtype.string ∧
    numpy_to_tf_dtypes NumpyDtype.unicode_ = Except.ok TfDtype.string ∧
    numpy_to_tf_dtypes NumpyDtype.str_ = Except.ok TfDtype.string ∧
    numpy_to_tf_dtypes NumpyDtype.datetime64 = Except.ok TfDtype.int64 ∧
    (∀ d, List.lookup d NUMPY_TO_TF_DTYPES_MAPPING = Option.none →
      numpy_to_tf_dtypes d = Except.error (TfError.typeMappingError d)) ∧
    numpy_to_tf_dtypes NumpyDtype.uint32
      = Except.error (TfError.typeMappingError NumpyDtype.uint32) ∧
    numpy_to_tf_dtypes NumpyDtype.uint64
      = Except.error (TfError.typeMappingError NumpyDtype.uint64) ∧
    numpy_to_tf_dtypes NumpyDtype.float16
      = Except.error (TfError.typeMappingError NumpyDtype.float16) ∧
    numpy_to_tf_dtypes NumpyDtype.object_
      = Except.error (TfError.typeMappingError NumpyDtype.object_) ∧
    ∀ d : NumpyDtype, (∃ t, numpy_to_tf_dtypes d = Except.ok t) ∨
      numpy_to_tf_dtypes d = Except.error (TfError.typeMappingError d) := by
  refine ⟨by intro p hp; fin_cases hp <;> rfl, rfl, rfl, rfl, rfl, rfl, rfl, ?_,
    rfl, rfl, rfl, rfl, ?_⟩
  · intro d h
    rw [numpy_to_tf_dtypes, h]
  · intro d
    cases d <;> first
      | exact Or.inl ⟨_, rfl⟩
      | exact Or.inr rfl

/-- C3 witness: the theorem applied at `uint16`, a concrete table entry. -/
theorem numpy_to_tf_dtypes_spec_witness :
    numpy_to_tf_dtypes NumpyDtype.uint16 = Except.ok TfDtype.int32 :=
  numpy_to_tf_dtypes_spec.1 (NumpyDtype.uint16, TfDtype.int32)
    (by simp [NUMPY_TO_TF_DTYPES_MAPPING])

/-! ### Sanitizer: datetime arrays (claim C7) -/

/-- C7: sanitizing a datetime64 array converts it elementwise to int64
nanoseconds since the POSIX epoch by integer arithmetic
(`sec * 10^9 + nsec`); one nanosecond past the epoch yields `1`, and
1970-01-02T00:00:00 (86400 whole seconds) yields `86400000000000`. -/
theorem sanitize_datetime_spec :
    (∀ (k : String) (xs : List Datetime64),
      sanitize_field_tf_types [(k, Value.datetimeArray xs)]
        = Except.ok [(k, Value.int64Array
            (xs.map (fun d => d.sec * 1000000000 + d.nsec)))]) ∧
    sanitize_field_tf_types [("t", Value.datetimeArray [⟨0, 1⟩])]
      = Except.ok [("t", Value.int64Array [1])] ∧
    sanitize_field_tf_types [("t", Value.datetimeArray [⟨86400, 0⟩])]
      = Except.ok [("t", Value.int64Array [86400000000000])] := by
  refine ⟨?_, by decide, by decide⟩
  intro k xs
  simp [sanitize_field_tf_types, sanitize_value, nsec_from_epoch]

/-! ### Sanitizer: decimals (claim C8) -/

/-- C8: sanitizing a Decimal value normalizes it (trailing zero digits of
the coefficient stripped) and converts it to its string form;
`Decimal("1.2300")` (coefficient 12300, exponent -4) yields `"1.23"`, and
`Decimal("5.00")` yields `"5"` (decimal point dropped when no fractional
part remains). -/
theorem sanitize_decimal_spec :
    (∀ (k : String) (d : Dec),
      sanitize_field_tf_types [(k, Value.decimal d)]
        = Except.ok [(k, Value.str (dec_to_string (dec_normalize d)))]) ∧
    (∀ d : Dec, (dec_normalize d).coeff = 0 ∨ (dec_normalize d).coeff % 10 ≠ 0) ∧
    sanitize_field_tf_types [("price", Value.decimal ⟨false, 12300, -4⟩)]
      = Except.ok [("price", Value.str "1.23")] ∧
    sanitize_field_tf_types [("q", Value.decimal ⟨false, 500, -2⟩)]
      = Except.ok [("q", Value.str "5")] := by
  refine ⟨?_, ?_, by decide, by decide⟩
  · intro k d
    simp [sanitize_field_tf_types, sanitize_value]
  · intro d
    by_cases h : d.coeff = 0
    · left; simp [dec_normalize, h]
    · right
      rw [dec_normalize, if_neg h]
      exact (stripTrailingAux_spec d.coeff d.coeff d.exp le_rfl h).2

/-! ### Sanitizer: None values (claim C4) -/

/-- C4: if any field of a row holds `None`, sanitizing the row fails with
the null-value error naming a `None` field (no converted row is returned);
when no earlier field is `None`, the error names exactly that field. -/
theorem sanitize_none_spec (fields : Row) :
    ∀ (i : Nat) (hi : i < fields.length), (fields.get ⟨i, hi⟩).2 = Value.none →
      ∃ k, sanitize_field_tf_types fields = Except.error (TfError.nullValueError k) ∧
        (k, Value.none) ∈ fields ∧
        ((∀ (j : Nat) (hj : j < fields.length), j < i →
            (fields.get ⟨j, hj⟩).2 ≠ Value.none) →
          k = (fields.get ⟨i, hi⟩).1) := by
  induction fields with
  | nil => intro i hi; exact absurd hi (by simp)
  | cons p rest ih =>
    intro i hi h
    obtain ⟨k0, v0⟩ := p
    by_cases h0 : v0 = Value.none
    · subst h0
      refine ⟨k0, ?_, List.mem_cons_self _ _, ?_⟩
      · simp [sanitize_field_tf_types]
      · intro hprev
        cases i with
        | zero => rfl
        | succ i' =>
          have hcon := hprev 0 (by simp) (Nat.succ_pos _)
          exact absurd rfl hcon
    · cases i with
      | zero => exact absurd h h0
      | succ i' =>
        have hi' : i' < rest.length := by simpa using hi
        have h' : (rest.get ⟨i', hi'⟩).2 = Value.none := h
        obtain ⟨k, herr, hmem, hfirst⟩ := ih i' hi' h'
        refine ⟨k, ?_, List.mem_cons_of_mem _ hmem, ?_⟩
        · simp [sanitize_field_tf_types, h0, herr]
        · intro hprev
          exact hfirst (fun j hj hji =>
            hprev (j + 1) (by simpa using Nat.succ_lt_succ hj) (Nat.succ_lt_succ hji))

/-- C4 witness: a concrete row whose second field is `None`; sanitizing
fails with the null-value error naming a `None` field. -/
theorem sanitize_none_spec_witness :
    ∃ k, sanitize_field_tf_types [("x", Value.str "v"), ("y", Value.none)]
        = Except.error (TfError.nullValueError k) ∧
      (k, Value.none) ∈ [("x", Value.str "v"), ("y", Value.none)] :=
  match sanitize_none_spec [("x", Value.str "v"), ("y", Value.none)] 1 (by decide) rfl with
  | ⟨k, h1, h2, _⟩ => ⟨k, h1, h2⟩

/-! ### Bridge configuration guards (claim C5) -/

/-- C5: `make_tensor` on a batched reader with a positive shuffling queue
capacity fails with the configuration error (for every reader state, i.e.
before and independent of any row), and `make_dataset` on an ngram-bearing
reader always fails with the not-supported error, regardless of data. -/
theorem bridge_guard_spec :
    (∀ (reader : Reader) (cap mad : Int), reader.batched_output = true → 0 < cap →
      make_tensor reader cap mad = Except.error TfError.configurationError) ∧
    (∀ (reader : Reader) (g : NgramDesc), reader.ngram = some g →
      make_dataset reader = Except.error TfError.notImplementedError) := by
  constructor
  · intro reader cap mad h1 h2
    simp [make_tensor, h1, h2]
  · intro reader g h
    simp [make_dataset, h]

/-- C5 witness: a concrete batched reader with capacity 5 (its pending row
even contains a `None`, which is never reached), and a concrete ngram
reader handed to `make_dataset`. -/
theorem bridge_guard_spec_witness :
    make_tensor ⟨[("x", ⟨NumpyDtype.int32, []⟩)], Option.none, true, false,
        [[("x", Value.none)]]⟩ 5 2
      = Except.error TfError.configurationError ∧
    make_dataset ⟨[("a", ⟨NumpyDtype.int32, []⟩)], some ⟨[(0, ["a"])]⟩, false, false, []⟩
      = Except.error TfError.notImplementedError :=
  ⟨bridge_guard_spec.1 _ 5 2 rfl (by decide),
   bridge_guard_spec.2 _ ⟨[(0, ["a"])]⟩ rfl⟩

/-! ### Dataset restart guard (claim C6) -/

/-- C6: once the reader reports `last_row_consumed`, re-initiating the
generator behind `make_dataset`'s lazy sequence fails with the restart
error (whose message directs the caller to the reader's `num_epochs`
configuration), and the failed re-initiation yields no rows. -/
theorem dataset_restart_spec (reader : Reader) (h : reader.last_row_consumed = true) :
    dataset_generator reader = Except.error TfError.restartError ∧
    ∀ rows, dataset_generator reader ≠ Except.ok rows := by
  have h1 : dataset_generator reader = Except.error TfError.restartError := by
    simp [dataset_generator, h]
  exact ⟨h1, fun rows hc => by rw [h1] at hc; cases hc⟩

/-- C6 witness: a concrete exhausted reader that still has a pending row
in its buffer; re-initiating the generator errors and yields nothing. -/
theorem dataset_restart_spec_witness :
    dataset_generator ⟨[("x", ⟨NumpyDtype.int32, []⟩)], Option.none, false, true,
        [[("x", Value.str "v")]]⟩
      = Except.error TfError.restartError ∧
    dataset_generator ⟨[("x", ⟨NumpyDtype.int32, []⟩)], Option.none, false, true,
        [[("x", Value.str "v")]]⟩
      ≠ Except.ok [[("x", Value.str "v")]] :=
  ⟨(dataset_restart_spec _ rfl).1, (dataset_restart_spec _ rfl).2 _⟩

/-! ### Shape setter (claim C9) -/

/-- C9: for every field of the produced record, the shape setter applies
the field's declared schema shape, prepending exactly one unbound leading
dimension when the batched flag is truthy and nothing otherwise. -/
theorem set_shape_spec (schema : List (String × Field)) (ks : List String)
    (b : Option Bool) (k : String) (f : Field) (hk : k ∈ ks)
    (hf : List.lookup k schema = some f) :
    List.lookup k (set_shape schema ks b)
      = some (if truthy b then Dim.unbound :: f.shape else f.shape) :=
  lookup_set_shape schema ks b k f hk hf

/-- C9 witness: declared shape `(3,4)` under `batched_output=True` yields
`(unbound, 3, 4)`; under `False` it yields `(3,4)` exactly. -/
theorem set_shape_spec_witness :
    List.lookup "img" (set_shape [("img", ⟨NumpyDtype.float32, [Dim.fixed 3, Dim.fixed 4]⟩)]
        ["img"] (some true))
      = some [Dim.unbound, Dim.fixed 3, Dim.fixed 4] ∧
    List.lookup "img" (set_shape [("img", ⟨NumpyDtype.float32, [Dim.fixed 3, Dim.fixed 4]⟩)]
        ["img"] (some false))
      = some [Dim.fixed 3, Dim.fixed 4] :=
  ⟨set_shape_spec _ ["img"] (some true) "img" ⟨NumpyDtype.float32, [Dim.fixed 3, Dim.fixed 4]⟩
      (by simp) rfl,
   set_shape_spec _ ["img"] (some false) "img" ⟨NumpyDtype.float32, [Dim.fixed 3, Dim.fixed 4]⟩
      (by simp) rfl⟩

/-! ### Ngram path never batches shapes (claim C10) -/

/-- C10: on the ngram path the shape setter is invoked without the batched
flag, so for every field of every timestep the applied static shape equals
the field's declared shape with no leading unbound dimension; and the
ngram path's shape outcome depends only on the reader's schema, hence not
on its `batched_output` value. -/
theorem tf_tensors_ngram_shape_spec (reader : Reader) (g : NgramDesc) (t : Int)
    (k : String) (f : Field) (ht : t ∈ tsRange g)
    (hk : k ∈ (get_schema_at_timestep reader.schema g t).map Prod.fst)
    (hf : List.lookup k reader.schema = some f) :
    (∃ fieldsT, List.lookup t (tf_tensors_ngram reader g) = some fieldsT ∧
      List.lookup k fieldsT = some f.shape) ∧
    ∀ r2 : Reader, r2.schema = reader.schema →
      tf_tensors_ngram r2 g = tf_tensors_ngram reader g := by
  constructor
  · refine ⟨set_shape reader.schema
      ((get_schema_at_timestep reader.schema g t).map Prod.fst) Option.none, ?_, ?_⟩
    · exact lookup_map_self (tsRange g)
        (fun t => set_shape reader.schema
          ((get_schema_at_timestep reader.schema g t).map Prod.fst) Option.none) t ht
    · simpa using lookup_set_shape reader.schema _ Option.none k f hk hf
  · intro r2 h2
    simp [tf_tensors_ngram, h2]

/-- C10 witness: a reader with `batched_output=True` and declared shape
`(3,4)`; the ngram path still applies `(3,4)` with no batch dimension, and
flipping `batched_output` to `False` leaves the outcome unchanged. -/
theorem tf_tensors_ngram_shape_spec_witness :
    (∃ fieldsT, List.lookup 0 (tf_tensors_ngram
        ⟨[("a", ⟨NumpyDtype.float32, [Dim.fixed 3, Dim.fixed 4]⟩)],
          some ⟨[(0, ["a"])]⟩, true, false, []⟩ ⟨[(0, ["a"])]⟩)
      = some fieldsT ∧ List.lookup "a" fieldsT = some [Dim.fixed 3, Dim.fixed 4]) ∧
    tf_tensors_ngram ⟨[("a", ⟨NumpyDtype.float32, [Dim.fixed 3, Dim.fixed 4]⟩)],
        some ⟨[(0, ["a"])]⟩, false, false, []⟩ ⟨[(0, ["a"])]⟩
      = tf_tensors_ngram ⟨[("a", ⟨NumpyDtype.float32, [Dim.fixed 3, Dim.fixed 4]⟩)],
          some ⟨[(0, ["a"])]⟩, true, false, []⟩ ⟨[(0, ["a"])]⟩ :=
  ⟨(tf_tensors_ngram_shape_spec
      ⟨[("a", ⟨NumpyDtype.float32, [Dim.fixed 3, Dim.fixed 4]⟩)],
        some ⟨[(0, ["a"])]⟩, true, false, []⟩ ⟨[(0, ["a"])]⟩ 0 "a"
      ⟨NumpyDtype.float32, [Dim.fixed 3, Dim.fixed 4]⟩
      (by decide) (by decide) rfl).1,
   (tf_tensors_ngram_shape_spec
      ⟨[("a", ⟨NumpyDtype.float32, [Dim.fixed 3, Dim.fixed 4]⟩)],
        some ⟨[(0, ["a"])]⟩, true, false, []⟩ ⟨[(0, ["a"])]⟩ 0 "a"
      ⟨NumpyDtype.float32, [Dim.fixed 3, Dim.fixed 4]⟩
      (by decide) (by decide) rfl).2 _ rfl⟩

/-! ### Flatten / unflatten helper lemmas -/

lemma take_len_append {α : Type} (l r : List α) : (l ++ r).take l.length = l := by
  induction l with
  | nil => simp
  | cons x xs ih => simp [ih]

lemma drop_len_append {α : Type} (l r : List α) : (l ++ r).drop l.length = r := by
  induction l with
  | nil => simp
  | cons x xs ih => simp [ih]

lemma zip_fst_snd {α β : Type} (l : List (α × β)) :
    List.zip (l.map Prod.fst) (l.map Prod.snd) = l := by
  induction l with
  | nil => rfl
  | cons p rest ih => simp [ih]

lemma lookup_of_pairwise_ne {β : Type} (l : List (Int × β))
    (hnd : (l.map Prod.fst).Pairwise (· ≠ ·)) :
    ∀ p ∈ l, List.lookup p.1 l = some p.2 := by
  induction l with
  | nil => intro p hp; cases hp
  | cons q rest ih =>
    intro p hp
    have hnd2 : (q.1 :: rest.map Prod.fst).Pairwise (· ≠ ·) := by
      simpa only [List.map_cons] using hnd
    have hnd' := List.pairwise_cons.mp hnd2
    rcases List.mem_cons.mp hp with h1 | h2
    · subst h1; simp [List.lookup]
    · have hq : q.1 ≠ p.1 :=
        hnd'.1 p.1 (List.mem_map_of_mem Prod.fst h2)
      have hb : (p.1 == q.1) = false := beq_eq_false_iff_ne.mpr (Ne.symm hq)
      simpa [List.lookup, hb] using ih hnd'.2 p h2

lemma map_fst_orderedInsert (p : Int × Row) (l : List (Int × Row)) :
    (List.orderedInsert (fun a b => a.1 ≤ b.1) p l).map Prod.fst
      = List.orderedInsert (· ≤ ·) p.1 (l.map Prod.fst) := by
  induction l with
  | nil => rfl
  | cons q rest ih =>
    by_cases h : p.1 ≤ q.1
    · simp [List.orderedInsert, h]
    · simp [List.orderedInsert, h, ih]

lemma map_fst_sortPairs (data : List (Int × Row)) :
    (sortPairs data).map Prod.fst = (data.map Prod.fst).insertionSort (· ≤ ·) := by
  induction data with
  | nil => rfl
  | cons p rest ih =>
    simp only [sortPairs, List.insertionSort, List.map_cons] at *
    rw [map_fst_orderedInsert, ih]

lemma flatten_body_enumFrom (full : List (Int × Row)) (n : Nat)
    (l : List (Int × Row)) (hl : ∀ p ∈ l, List.lookup p.1 full = some p.2) :
    ((l.map Prod.fst).enumFrom n).flatMap
      (fun q =>
        match List.lookup q.2 full with
        | some row => row.map (fun f => (f.1 ++ "_" ++ toString q.1, f.2))
        | Option.none => [])
    = (l.enumFrom n).flatMap
        (fun q => q.2.2.map (fun f => (f.1 ++ "_" ++ toString q.1, f.2))) := by
  induction l generalizing n with
  | nil => rfl
  | cons p rest ih =>
    have hp := hl p (List.mem_cons_self _ _)
    simp only [List.map_cons, List.enumFrom, List.flatMap_cons]
    rw [hp]
    rw [ih (n + 1) (fun q hq => hl q (List.mem_cons_of_mem _ hq))]

/-- The ordering content of `_flatten`, for any mapping with no duplicate
timestep keys: the output is exactly the key-sorted timestep→row pairs,
enumerated with a 0-based position index, each row's fields emitted in the
row's own order under the key `fieldname ++ "_" ++ index`. -/
lemma flatten_eq_sortPairs (data : List (Int × Row))
    (hnd : (data.map Prod.fst).Nodup) :
    flatten data = (sortPairs data).enum.flatMap
      (fun q => q.2.2.map (fun f => (f.1 ++ "_" ++ toString q.1, f.2))) := by
  have hlook : ∀ p ∈ sortPairs data, List.lookup p.1 data = some p.2 := by
    intro p hp
    exact lookup_of_pairwise_ne data hnd p ((List.perm_insertionSort _ data).subset hp)
  have hkeys : (data.map Prod.fst).insertionSort (· ≤ ·) = (sortPairs data).map Prod.fst :=
    (map_fst_sortPairs data).symm
  rw [flatten, hkeys]
  exact flatten_body_enumFrom data 0 (sortPairs data) hlook

lemma tsRange_pairwise (g : NgramDesc) : (tsRange g).Pairwise (· < ·) := by
  have h1 : ((List.range (maxKey (g.fields.map Prod.fst)
        - minKey (g.fields.map Prod.fst) + 1).toNat).map
      (fun i => minKey (g.fields.map Prod.fst) + Int.ofNat i)).Pairwise (· < ·) := by
    refine List.pairwise_map.mpr ?_
    refine (List.pairwise_lt_range _).imp ?_
    intro a b hab
    simp only [Int.ofNat_eq_coe]
    omega
  exact h1

lemma enum_flatMap_snd (n : Nat) (l : List (Int × Row)) :
    ((l.enumFrom n).flatMap
        (fun q => q.2.2.map (fun f => (f.1 ++ "_" ++ toString q.1, f.2)))).map Prod.snd
      = l.flatMap (fun p => p.2.map Prod.snd) := by
  induction l generalizing n with
  | nil => rfl
  | cons p rest ih =>
    simp only [List.enumFrom, List.flatMap_cons, List.map_append, List.map_map]
    rw [ih (n + 1)]
    rfl

lemma ngram_slices_roundtrip (schema : List (String × Field)) (g : NgramDesc)
    (data : List (Int × Row))
    (hf : ∀ p ∈ data, p.2.map Prod.fst = (get_schema_at_timestep schema g p.1).map Prod.fst)
    (hl : ∀ p ∈ data, (get_field_names_at_timestep g p.1).length = p.2.length) :
    ngram_slices schema g (data.map Prod.fst) (data.flatMap (fun p => p.2.map Prod.snd))
      = data := by
  induction data with
  | nil => rfl
  | cons p rest ih =>
    have hf0 := hf p (List.mem_cons_self _ _)
    have hl0 := hl p (List.mem_cons_self _ _)
    have hlen : (get_field_names_at_timestep g p.1).length = (p.2.map Prod.snd).length := by
      rw [List.length_map]; exact hl0
    simp only [List.map_cons, List.flatMap_cons, ngram_slices]
    rw [hlen, take_len_append, drop_len_append, ← hf0, zip_fst_snd]
    rw [ih (fun q hq => hf q (List.mem_cons_of_mem _ hq))
        (fun q hq => hl q (List.mem_cons_of_mem _ hq))]

/-! ### Flattening order (claim C2) -/

/-- C2: for every timestep→row mapping (with distinct timestep keys, as a
dict has), the flattener's output equals the key-sorted pairs enumerated
with 0-based position indices, each timestep's row fields emitted in the
row's own iteration order under the key `fieldname ++ "_" ++ index` — the
suffix is the position among the sorted timesteps, not the raw timestep —
and the output field order is exactly this encounter order. -/
theorem flatten_spec (data : List (Int × Row)) (hnd : (data.map Prod.fst).Nodup) :
    flatten data = (sortPairs data).enum.flatMap
      (fun q => q.2.2.map (fun f => (f.1 ++ "_" ++ toString q.1, f.2))) :=
  flatten_eq_sortPairs data hnd

/-- C2 witness: timesteps 2 and -1 given out of order; the suffixes are
the sorted positions 0 and 1, not the raw timestep values. -/
theorem flatten_spec_witness :
    flatten [(2, [("c", Value.int 1)]), (-1, [("a", Value.int 2), ("b", Value.int 3)])]
      = [("a_0", Value.int 2), ("b_0", Value.int 3), ("c_1", Value.int 1)] :=
  (flatten_spec [(2, [("c", Value.int 1)]), (-1, [("a", Value.int 2), ("b", Value.int 3)])]
    (by decide)).trans (by decide)

/-! ### Flatten/unflatten round trip (claim C1) -/

/-- C1: for an ngram descriptor whose timestep keys form a contiguous
ascending integer range, and a timestep→row mapping with those keys whose
rows carry exactly the schema-at-timestep fields, flattening emits each
field under `fieldname ++ "_" ++ position-index` in encounter order, and
unflattening the flat value sequence against the same descriptor
(consuming, for each timestep from min to max, exactly that timestep's
field count of leading values positionally) reconstructs the original
rows. -/
theorem flatten_unflatten_roundtrip (schema : List (String × Field)) (g : NgramDesc)
    (data : List (Int × Row))
    (hrange : g.fields.map Prod.fst = tsRange g)
    (hkeys : data.map Prod.fst = g.fields.map Prod.fst)
    (hfields : ∀ p ∈ data,
      p.2.map Prod.fst = (get_schema_at_timestep schema g p.1).map Prod.fst)
    (hlen : ∀ p ∈ data, (get_field_names_at_timestep g p.1).length = p.2.length) :
    (flatten data).map Prod.fst
      = data.enum.flatMap (fun q => q.2.2.map (fun f => f.1 ++ "_" ++ toString q.1)) ∧
    make_namedtuple_tf_ngram schema g ((flatten data).map Prod.snd) = data := by
  have hsorted : (data.map Prod.fst).Pairwise (· < ·) := by
    rw [hkeys, hrange]; exact tsRange_pairwise g
  have hnd : (data.map Prod.fst).Nodup := hsorted.imp ne_of_lt
  have hsp : sortPairs data = data := by
    have hs : data.Pairwise (fun p q : Int × Row => p.1 ≤ q.1) :=
      (List.pairwise_map.mp hsorted).imp le_of_lt
    exact List.Sorted.insertionSort_eq hs
  have hflat := flatten_eq_sortPairs data hnd
  rw [hsp] at hflat
  constructor
  · rw [hflat]
    simp only [List.map_flatMap, List.map_map]
    rfl
  · rw [hflat]
    have hval := enum_flatMap_snd 0 data
    rw [List.enum, hval, make_namedtuple_tf_ngram, ← hrange, ← hkeys]
    exact ngram_slices_roundtrip schema g data hfields hlen

/-- C1 witness: the spec's example — ngram `{-1: {a,b}, 0: {a,b}}` with
rows keyed -1 and 0: flattening yields keys `a_0, b_0, a_1, b_1` in that
order, and unflattening the flat values reconstructs both rows. -/
theorem flatten_unflatten_roundtrip_witness :
    (flatten [(-1, [("a", Value.int 1), ("b", Value.int 2)]),
              (0, [("a", Value.int 3), ("b", Value.int 4)])]).map Prod.fst
      = ["a_0", "b_0", "a_1", "b_1"] ∧
    make_namedtuple_tf_ngram
        [("a", ⟨NumpyDtype.int32, []⟩), ("b", ⟨NumpyDtype.int32, []⟩)]
        ⟨[(-1, ["a", "b"]), (0, ["a", "b"])]⟩
        ((flatten [(-1, [("a", Value.int 1), ("b", Value.int 2)]),
                   (0, [("a", Value.int 3), ("b", Value.int 4)])]).map Prod.snd)
      = [(-1, [("a", Value.int 1), ("b", Value.int 2)]),
         (0, [("a", Value.int 3), ("b", Value.int 4)])] := by
  have h := flatten_unflatten_roundtrip
    [("a", ⟨NumpyDtype.int32, []⟩), ("b", ⟨NumpyDtype.int32, []⟩)]
    ⟨[(-1, ["a", "b"]), (0, ["a", "b"])]⟩
    [(-1, [("a", Value.int 1), ("b", Value.int 2)]),
     (0, [("a", Value.int 3), ("b", Value.int 4)])]
    (by decide) (by decide) (by decide) (by decide)
  exact ⟨h.1.trans (by decide), h.2⟩

end PyCarbonTF
